import Mathlib

/-!
Verification of the spreadsheet-inspector script (src/analyze_excel.py).

The script is a linear sequence of three pandas calls inside one
try/except block:

  xls = pd.ExcelFile(file_path)          -- open the workbook
  print two things on success:
    print of xls.sheet_names
    df = pd.read_excel(xls, sheet_name=Sheet1); print(df.head())
  except Exception as e: print the error, sys.exit(1)

We embed it shallowly: the observable state of the file at the fixed
path is a `FileState` (missing, unreadable, or a concrete workbook);
each pandas call becomes a pure fallible function; the whole run
becomes a total function from `FileState` to the list of lines written
to standard output together with the process exit code.  All printing
in the source goes through Python `print`, i.e. to standard output, so
a single output stream suffices.
-/

/-- A spreadsheet cell value; cells hold mixed types. -/
inductive Cell where
  | empty : Cell
  | str : String → Cell
  | int : Int → Cell
deriving DecidableEq, Repr

/-- A tabular structure loaded from one sheet: named columns and an
ordered sequence of rows (the pandas DataFrame of the source). -/
structure Table where
  columns : List String
  rows : List (List Cell)
deriving DecidableEq, Repr

/-- A workbook: an ordered sequence of named sheets, in on-disk order. -/
structure Workbook where
  sheets : List (String × Table)
deriving DecidableEq, Repr

/-- The fixed file path hard-coded in the source (line 5). -/
def file_path : String := "watchlist.xlsm"

/-- The fixed sheet name hard-coded in the source (line 14). -/
def sheet_name : String := "Sheet1"

/-- Observable state of the file at `file_path` when the script runs:
absent, present but not a readable workbook (carrying the parse-error
description the library raises for it), or a valid workbook. -/
inductive FileState where
  | missing : FileState
  | unreadable : String → FileState
  | valid : Workbook → FileState
deriving DecidableEq, Repr

/-- Description of the exception pandas raises when the file at
`file_path` does not exist (a FileNotFoundError). -/
def fileNotFoundMsg : String :=
  "[Errno 2] No such file or directory: watchlist.xlsm"

/-- Description of the exception pandas raises when the requested
sheet is absent from the workbook. -/
def missingSheetMsg (name : String) : String :=
  "Worksheet named " ++ name ++ " not found"

/-- `pd.ExcelFile(file_path)` (source line 9): opens the workbook,
raising on a missing or unreadable file. -/
def ExcelFile : FileState → Except String Workbook
  | FileState.missing => Except.error fileNotFoundMsg
  | FileState.unreadable d => Except.error d
  | FileState.valid wb => Except.ok wb

/-- `xls.sheet_names` (source line 11): the sheet names in the
workbook's on-disk order. -/
def sheet_names (wb : Workbook) : List String :=
  wb.sheets.map Prod.fst

/-- `pd.read_excel(xls, sheet_name=...)` (source line 14): loads the
named sheet into a Table, raising when no sheet has that name. -/
def read_excel (wb : Workbook) (name : String) : Except String Table :=
  match wb.sheets.lookup name with
  | some t => Except.ok t
  | none => Except.error (missingSheetMsg name)

/-- `df.head()` (source line 15): the first rows of the table, at most
5 of them (the pandas default). -/
def head (df : Table) : Table :=
  ⟨df.columns, df.rows.take 5⟩

/-- One line written to standard output by the script:
the sheet-name list (line 11), the rendered preview (line 15), or the
error description printed by the except-handler (line 17). -/
inductive OutLine where
  | sheetNamesLine : List String → OutLine
  | previewLine : Table → OutLine
  | errorLine : String → OutLine
deriving DecidableEq, Repr

/-- The observable outcome of one run: the lines written to standard
output, in order, and the process exit code. -/
structure RunResult where
  stdout : List OutLine
  exitCode : Nat
deriving DecidableEq, Repr

/-- The whole script (source lines 7-18).  The try-block runs the
three calls in order; the first raised exception transfers control to
the except-handler, which prints the error description and exits with
code 1; a run with no exception exits with code 0.  The sheet-name
line is printed before `read_excel` runs, so it is already on standard
output when loading the sheet fails. -/
def analyze_excel (fs : FileState) : RunResult :=
  match ExcelFile fs with
  | Except.error e => ⟨[OutLine.errorLine e], 1⟩
  | Except.ok xls =>
    match read_excel xls sheet_name with
    | Except.error e =>
        ⟨[OutLine.sheetNamesLine (sheet_names xls), OutLine.errorLine e], 1⟩
    | Except.ok df =>
        ⟨[OutLine.sheetNamesLine (sheet_names xls),
          OutLine.previewLine (head df)], 0⟩

/-- The script with its full invocation context.  The source consults
neither `sys.argv` nor `os.environ` nor any persisted state, so the
arguments and environment are taken but never read. -/
def analyze_excel_invoked (fs : FileState) (_argv : List String)
    (_env : List (String × String)) : RunResult :=
  analyze_excel fs

/-- The run paired with the final state of the file on disk.  The
source performs only read operations on the workbook (`ExcelFile`,
`read_excel`, `head`, `print`), so the file state at the end of the
run is the state it started from. -/
def analyze_excel_run (fs : FileState) : RunResult × FileState :=
  (analyze_excel fs, fs)

/-- A concrete table used in witnesses: one column, six rows. -/
def tableA : Table :=
  ⟨["Ticker"],
   [[Cell.int 1], [Cell.int 2], [Cell.int 3],
    [Cell.int 4], [Cell.int 5], [Cell.int 6]]⟩

/-- A concrete workbook whose first sheet is named Sheet1. -/
def wbWithSheet1 : Workbook :=
  ⟨[(sheet_name, tableA), ("Notes", ⟨[], []⟩)]⟩

/-- A concrete workbook with no sheet named Sheet1. -/
def wbNoSheet1 : Workbook :=
  ⟨[("Data", tableA)]⟩

/-- C1: for every valid workbook at the fixed path containing a sheet
named Sheet1, the run prints the full sheet-name list and then a
preview of at most 5 rows of that sheet, and exits with status 0. -/
theorem c1_success_preview (wb : Workbook) (t : Table)
    (h : wb.sheets.lookup sheet_name = some t) :
    analyze_excel (FileState.valid wb) =
      ⟨[OutLine.sheetNamesLine (sheet_names wb),
        OutLine.previewLine (head t)], 0⟩ ∧
    (head t).rows.length ≤ 5 := by
  constructor
  · simp [analyze_excel, ExcelFile, read_excel, h]
  · simp only [head, List.length_take]
    omega

/-- C1 witness: a concrete workbook with Sheet1 holding 6 rows. -/
theorem c1_success_preview_witness :
    analyze_excel (FileState.valid wbWithSheet1) =
      ⟨[OutLine.sheetNamesLine (sheet_names wbWithSheet1),
        OutLine.previewLine (head tableA)], 0⟩ ∧
    (head tableA).rows.length ≤ 5 :=
  c1_success_preview wbWithSheet1 tableA (by decide)

/-- C2: the except-handler catches every error the try-block raises:
each run either exits 0 with no error line printed, or exits exactly 1
with the error description as the last line on standard output; no
recovery is attempted. -/
theorem c2_errors_caught (fs : FileState) :
    ((analyze_excel fs).exitCode = 0 ∧
      ∀ e, OutLine.errorLine e ∉ (analyze_excel fs).stdout) ∨
    ((analyze_excel fs).exitCode = 1 ∧
      ∃ e, (analyze_excel fs).stdout.getLast? = some (OutLine.errorLine e)) := by
  cases fs with
  | missing =>
      exact Or.inr ⟨rfl, fileNotFoundMsg, rfl⟩
  | unreadable d =>
      exact Or.inr ⟨rfl, d, rfl⟩
  | valid wb =>
      cases h : wb.sheets.lookup sheet_name with
      | none =>
          refine Or.inr ⟨?_, missingSheetMsg sheet_name, ?_⟩ <;>
            simp [analyze_excel, ExcelFile, read_excel, h]
      | some t =>
          refine Or.inl ⟨?_, ?_⟩ <;>
            simp [analyze_excel, ExcelFile, read_excel, h]

/-- C2 witness: instantiating at a concrete failing state. -/
theorem c2_errors_caught_witness :
    ((analyze_excel FileState.missing).exitCode = 0 ∧
      ∀ e, OutLine.errorLine e ∉ (analyze_excel FileState.missing).stdout) ∨
    ((analyze_excel FileState.missing).exitCode = 1 ∧
      ∃ e, (analyze_excel FileState.missing).stdout.getLast? =
        some (OutLine.errorLine e)) :=
  c2_errors_caught FileState.missing

/-- C3: with the file at the fixed path missing, the run prints an
error line whose description contains a file-not-found indication,
and exits with status 1. -/
theorem c3_missing_file :
    analyze_excel FileState.missing =
      ⟨[OutLine.errorLine fileNotFoundMsg], 1⟩ ∧
    ∃ a b, fileNotFoundMsg = a ++ "No such file or directory" ++ b := by
  exact ⟨rfl, "[Errno 2] ", ": watchlist.xlsm", by decide⟩

/-- C4: when the workbook opens but has no sheet named Sheet1, the run
prints an error line and exits with status 1. -/
theorem c4_missing_sheet (wb : Workbook)
    (h : wb.sheets.lookup sheet_name = none) :
    analyze_excel (FileState.valid wb) =
      ⟨[OutLine.sheetNamesLine (sheet_names wb),
        OutLine.errorLine (missingSheetMsg sheet_name)], 1⟩ := by
  simp [analyze_excel, ExcelFile, read_excel, h]

/-- C4 witness: a concrete workbook without a Sheet1. -/
theorem c4_missing_sheet_witness :
    analyze_excel (FileState.valid wbNoSheet1) =
      ⟨[OutLine.sheetNamesLine (sheet_names wbNoSheet1),
        OutLine.errorLine (missingSheetMsg sheet_name)], 1⟩ :=
  c4_missing_sheet wbNoSheet1 (by decide)

/-- C5: whenever the workbook opens, the sheet-name line the run
prints carries exactly the workbook's on-disk sheet sequence, in the
same order. -/
theorem c5_sheet_order (wb : Workbook) :
    (analyze_excel (FileState.valid wb)).stdout.head? =
      some (OutLine.sheetNamesLine (wb.sheets.map Prod.fst)) := by
  cases h : wb.sheets.lookup sheet_name <;>
    simp [analyze_excel, ExcelFile, read_excel, sheet_names, h]

/-- C6: every line a run writes goes to the single standard-output
stream of the run result; a successful run prints the sheet-name line
before the preview line, and a failing run prints an error line. -/
theorem c6_output_order (fs : FileState) :
    ((analyze_excel fs).exitCode = 0 →
      ∃ ns t, (analyze_excel fs).stdout =
        [OutLine.sheetNamesLine ns, OutLine.previewLine t]) ∧
    ((analyze_excel fs).exitCode ≠ 0 →
      ∃ e, OutLine.errorLine e ∈ (analyze_excel fs).stdout) := by
  cases fs with
  | missing =>
      exact ⟨fun h => by simp [analyze_excel, ExcelFile] at h,
             fun _ => ⟨fileNotFoundMsg, by simp [analyze_excel, ExcelFile]⟩⟩
  | unreadable d =>
      exact ⟨fun h => by simp [analyze_excel, ExcelFile] at h,
             fun _ => ⟨d, by simp [analyze_excel, ExcelFile]⟩⟩
  | valid wb =>
      cases h : wb.sheets.lookup sheet_name with
      | none =>
          refine ⟨fun hc => ?_, fun _ => ⟨missingSheetMsg sheet_name, ?_⟩⟩ <;>
            simp [analyze_excel, ExcelFile, read_excel, h] at *
      | some t =>
          refine ⟨fun _ => ⟨sheet_names wb, head t, ?_⟩, fun hc => ?_⟩ <;>
            simp [analyze_excel, ExcelFile, read_excel, h] at *

/-- C6 witness: the success branch at a concrete workbook. -/
theorem c6_output_order_witness :
    ∃ ns t, (analyze_excel (FileState.valid wbWithSheet1)).stdout =
      [OutLine.sheetNamesLine ns, OutLine.previewLine t] :=
  (c6_output_order (FileState.valid wbWithSheet1)).1 (by decide)

/-- C7: any two failing runs, whatever the causes of their errors,
show the same user-visible shape: an error line on standard output as
the last line, and the same exit code 1. -/
theorem c7_uniform_failure (fs1 fs2 : FileState)
    (h1 : (analyze_excel fs1).exitCode ≠ 0)
    (h2 : (analyze_excel fs2).exitCode ≠ 0) :
    (analyze_excel fs1).exitCode = 1 ∧ (analyze_excel fs2).exitCode = 1 ∧
    (∃ e, (analyze_excel fs1).stdout.getLast? = some (OutLine.errorLine e)) ∧
    (∃ e, (analyze_excel fs2).stdout.getLast? = some (OutLine.errorLine e)) := by
  have key : ∀ fs : FileState, (analyze_excel fs).exitCode ≠ 0 →
      (analyze_excel fs).exitCode = 1 ∧
      ∃ e, (analyze_excel fs).stdout.getLast? = some (OutLine.errorLine e) := by
    intro fs hfs
    cases fs with
    | missing => exact ⟨rfl, fileNotFoundMsg, rfl⟩
    | unreadable d => exact ⟨rfl, d, rfl⟩
    | valid wb =>
        cases h : wb.sheets.lookup sheet_name with
        | none =>
            refine ⟨?_, missingSheetMsg sheet_name, ?_⟩ <;>
              simp [analyze_excel, ExcelFile, read_excel, h]
        | some t =>
            exact absurd (by simp [analyze_excel, ExcelFile, read_excel, h]) hfs
  exact ⟨(key fs1 h1).1, (key fs2 h2).1, (key fs1 h1).2, (key fs2 h2).2⟩

/-- C7 witness: two failures of different causes, a missing file and a
workbook lacking Sheet1, have identical user-visible shape. -/
theorem c7_uniform_failure_witness :
    (analyze_excel FileState.missing).exitCode = 1 ∧
    (analyze_excel (FileState.valid wbNoSheet1)).exitCode = 1 ∧
    (∃ e, (analyze_excel FileState.missing).stdout.getLast? =
      some (OutLine.errorLine e)) ∧
    (∃ e, (analyze_excel (FileState.valid wbNoSheet1)).stdout.getLast? =
      some (OutLine.errorLine e)) :=
  c7_uniform_failure FileState.missing (FileState.valid wbNoSheet1)
    (by decide) (by decide)

/-- C8: the run is a function of the file contents alone: two
invocations with the same file state but arbitrary different
command-line arguments and environments produce identical output and
exit code. -/
theorem c8_env_independent (fs : FileState)
    (argv1 argv2 : List String) (env1 env2 : List (String × String)) :
    analyze_excel_invoked fs argv1 env1 = analyze_excel_invoked fs argv2 env2 :=
  rfl

/-- C9: no run, successful or failing, changes the file on disk: the
final file state of every run equals the initial one. -/
theorem c9_file_unchanged (fs : FileState) :
    (analyze_excel_run fs).2 = fs :=
  rfl

/-- C10: output is not atomic on failure: when the workbook opens but
Sheet1 is missing, the run has already printed the sheet-name line
before the error line, so the failing run emits partial success
output, and exits with status 1. -/
theorem c10_partial_output (wb : Workbook)
    (h : wb.sheets.lookup sheet_name = none) :
    (analyze_excel (FileState.valid wb)).stdout =
      [OutLine.sheetNamesLine (sheet_names wb),
       OutLine.errorLine (missingSheetMsg sheet_name)] ∧
    (analyze_excel (FileState.valid wb)).exitCode = 1 := by
  constructor <;> simp [analyze_excel, ExcelFile, read_excel, h]

/-- C10 witness: a concrete workbook lacking Sheet1. -/
theorem c10_partial_output_witness :
    (analyze_excel (FileState.valid wbNoSheet1)).stdout =
      [OutLine.sheetNamesLine (sheet_names wbNoSheet1),
       OutLine.errorLine (missingSheetMsg sheet_name)] ∧
    (analyze_excel (FileState.valid wbNoSheet1)).exitCode = 1 :=
  c10_partial_output wbNoSheet1 (by decide)
